import Mathlib

/-!
Shallow Lean embedding of the uvtest monorepo test runner.

Source layout:
  src/uvtest/discovery.py : package discovery (SKIP_DIRS, Package,
    _parse_package_name, _has_test_directory, _should_skip_dir, find_packages)
  src/uvtest/runner.py : subprocess strategies (TestResult, SyncResult,
    sync_package, run_tests_in_package, run_tests_isolated)
  src/uvtest/cli.py : orchestration (name filtering, fail-fast loop)

Modelling conventions:
  filesystem directories are a finite tree value; the TOML parser is an
  oracle (its outcome is an input of the embedding); subprocess execution
  is an oracle (exit code, stdout, stderr, or an exception kind); wall
  clock durations are inputs of type Rat; Python strings compare by code
  point, modelled by an explicit lexicographic comparison on the character
  list of the string.
-/

/-- Lexicographic strict comparison of two character lists by code point.
This models the CPython comparison of str values used by list.sort with a
string key: shorter prefix is smaller, otherwise the first differing code
point decides. -/
def strLtB : List Char → List Char → Bool
  | _, [] => false
  | [], _ :: _ => true
  | a :: as, b :: bs =>
    if a.toNat < b.toNat then true
    else if b.toNat < a.toNat then false
    else strLtB as bs

/-- Strict python string order: a < b. -/
def pyStrLt (a b : String) : Bool := strLtB a.data b.data

/-- Non-strict python string order: a <= b, that is not (b < a). -/
def pyStrLe (a b : String) : Bool := ! strLtB b.data a.data

/-- Python whitespace test for str.strip: space, tab, newline, carriage
return, vertical tab, form feed. -/
def isPyWhitespace (c : Char) : Bool :=
  c == ' ' || c == '\t' || c == '\n' || c == '\r' || c.toNat == 11 || c.toNat == 12

/-- Drop leading whitespace characters from a character list. -/
def dropLeadingWS : List Char → List Char
  | [] => []
  | c :: cs => if isPyWhitespace c then dropLeadingWS cs else c :: cs

/-- Model of the Python str.strip() method: remove leading and trailing
whitespace. -/
def pyStrip (s : String) : String :=
  String.mk (List.reverse (dropLeadingWS (List.reverse (dropLeadingWS s.data))))

/-- Model of a parsed TOML value, as returned by tomllib.load. A TOML
document parses to a table; nested values may be tables, strings,
integers, booleans or arrays. -/
inductive Toml where
  | table (entries : List (String × Toml)) : Toml
  | str (s : String) : Toml
  | int (n : Int) : Toml
  | boolean (b : Bool) : Toml
  | arr (xs : List Toml) : Toml

/-- Model of dict.get on a parsed table: first entry with the given key,
None when absent. -/
def lookupToml : List (String × Toml) → String → Option Toml
  | [], _ => none
  | (k, v) :: rest, key => if k == key then some v else lookupToml rest key

/-- Oracle for open plus tomllib.load on a manifest path: either the
parsed top-level table, an OSError while opening or reading, or a
TOMLDecodeError while parsing. -/
inductive LoadOutcome where
  | ok (data : List (String × Toml)) : LoadOutcome
  | ioError : LoadOutcome
  | decodeError : LoadOutcome

/-- Result of running a Python function: a returned value or a raised,
uncaught exception identified by its class name. -/
inductive PyResult (α : Type) where
  | ret (a : α) : PyResult α
  | raised (exn : String) : PyResult α
  deriving Repr

/-- Embedding of _parse_package_name (discovery.py lines 40 to 50) over
the load oracle. The body is
data.get("project", \x7b\x7d).get("name") inside a try that catches only
OSError and TOMLDecodeError. When the value stored under the key project
is not a table, the second .get is an attribute access on a non-dict
value and raises AttributeError, which no handler catches. When the name
value is present it is returned whatever its type. -/
def _parse_package_name (load : LoadOutcome) : PyResult (Option Toml) :=
  match load with
  | .ioError => .ret none
  | .decodeError => .ret none
  | .ok data =>
    match lookupToml data "project" with
    | none => .ret none
    | some (.table kvs) => .ret (lookupToml kvs "name")
    | some _ => .raised "AttributeError"

/-- Embedding of the SKIP_DIRS frozenset (discovery.py lines 15 to 27). -/
def SKIP_DIRS : List String :=
  [".venv", "__pycache__", "node_modules", ".git", ".tox", ".nox", "dist", "build", ".eggs"]

/-- Embedding of _should_skip_dir (discovery.py lines 58 to 60):
dirname in SKIP_DIRS or dirname.startswith("."). The startswith test on a
one character prefix is: the first character is a dot. -/
def _should_skip_dir (dirname : String) : Bool :=
  SKIP_DIRS.contains dirname ||
    (match dirname.data with
     | [] => false
     | c :: _ => c == '.')

/-- Embedding of the Package dataclass (discovery.py lines 30 to 37).
The dataclass declares exactly these four fields: name, path, has_tests,
pyproject_path. Paths are modelled as their list of components below the
discovery root. -/
structure Package where
  name : String
  path : List String
  has_tests : Bool
  pyproject_path : List String
  deriving DecidableEq, Repr

/-- Values a Package attribute access can produce. -/
inductive PyVal where
  | str (s : String) : PyVal
  | pathVal (p : List String) : PyVal
  | boolean (b : Bool) : PyVal
  deriving DecidableEq, Repr

/-- Model of Python attribute lookup on a Package instance: the four
fields declared by the dataclass resolve to their values; any other
attribute name raises AttributeError, modelled as none. -/
def Package.getattr (p : Package) (attr : String) : Option PyVal :=
  if attr == "name" then some (.str p.name)
  else if attr == "path" then some (.pathVal p.path)
  else if attr == "has_tests" then some (.boolean p.has_tests)
  else if attr == "pyproject_path" then some (.pathVal p.pyproject_path)
  else none

/-- Embedding of the attribute access pkg.test_dependencies performed by
the isolated branch of the run command (cli.py line 202), which passes it
as the third argument of run_tests_isolated. -/
def cli_isolated_test_dependencies (p : Package) : Option PyVal :=
  Package.getattr p "test_dependencies"

/-- Model of the directory tree walked by find_packages. A Forest is the
ordered list of subdirectories of one directory; each entry carries the
directory name, the manifest status of that directory, and its own
subdirectories. The manifest status is none when the directory has no
pyproject.toml as a direct child file, and some r when it does, where r
is the value _parse_package_name returns for that file (an optional
name). Non-directory entries other than pyproject.toml are irrelevant to
the source and are not modelled; permission errors and symlink cycles
are out of scope. -/
inductive Forest where
  | nil : Forest
  | cons (name : String) (pyproject : Option (Option String)) (children : Forest) (rest : Forest) : Forest
  deriving DecidableEq

/-- Whether a directory list contains a direct child directory with the
given name. -/
def Forest.hasDirNamed : Forest → String → Bool
  | .nil, _ => false
  | .cons nm _ _ rest, target => nm == target || rest.hasDirNamed target

/-- Embedding of _has_test_directory (discovery.py lines 53 to 55):
a direct child directory named tests or test exists. -/
def _has_test_directory (children : Forest) : Bool :=
  children.hasDirNamed "tests" || children.hasDirNamed "test"

/-- Package emission for one directory entry (discovery.py lines 96 to
111): when pyproject.toml is a direct child, build one Package whose name
is the parsed manifest name or, when that is None, the directory name. -/
def emitPackage (base : List String) (nm : String) (pyproject : Option (Option String))
    (children : Forest) : List Package :=
  match pyproject with
  | none => []
  | some parsed =>
    [{ name := parsed.getD nm,
       path := base ++ [nm],
       has_tests := _has_test_directory children,
       pyproject_path := base ++ [nm, "pyproject.toml"] }]

/-- Embedding of _scan_directory (discovery.py lines 82 to 114) applied
to the subdirectory entries of one directory: for each entry in order,
skip it entirely when _should_skip_dir holds for its name; otherwise emit
its package, if any, then recurse into it; in both cases continue with
the remaining entries. -/
def scanForest (base : List String) : Forest → List Package
  | .nil => []
  | .cons nm pyproject children rest =>
    (if _should_skip_dir nm then []
     else emitPackage base nm pyproject children ++ scanForest (base ++ [nm]) children)
    ++ scanForest base rest

/-- Order used by packages.sort(key=lambda p: p.name) in find_packages
(discovery.py line 119): comparison of the name strings. -/
def rPkgName (p q : Package) : Prop := pyStrLe p.name q.name = true

instance : DecidableRel rPkgName := fun _ _ => instDecidableEqBool _ _

/-- Embedding of find_packages (discovery.py lines 63 to 121). The
argument is the subdirectory forest of the resolved root; the root
directory itself is never examined for a manifest. The stable ascending
sort of CPython list.sort is modelled by insertion sort under the same
key order. -/
def find_packages (rootChildren : Forest) : List Package :=
  List.insertionSort rPkgName (scanForest [] rootChildren)

/-- Oracle for one subprocess.run invocation (runner.py): a completed
process with its exit code and captured channels, or one of the three
caught exception kinds. -/
inductive ProcOutcome where
  | completed (returncode : Int) (stdout stderr : String) : ProcOutcome
  | timedOut : ProcOutcome
  | fileNotFound : ProcOutcome
  | osError (msg : String) : ProcOutcome

/-- Embedding of the TestResult dataclass (runner.py lines 10 to 18). -/
structure TestResult where
  package_name : String
  passed : Bool
  duration : Rat
  output : String
  return_code : Int
  deriving Repr

/-- Embedding of the SyncResult dataclass (runner.py lines 21 to 28). -/
structure SyncResult where
  package_name : String
  success : Bool
  output : String
  return_code : Int
  deriving Repr

/-- Output composition shared by all three runner functions (runner.py
lines 57 to 60, 128 to 131, 224 to 227): output = stdout; if stderr is
truthy, output = output + newline + stderr when output is truthy, else
stderr alone. -/
def combineOutput (stdout stderr : String) : String :=
  if stderr == "" then stdout
  else if stdout == "" then stderr
  else stdout ++ "\n" ++ stderr

/-- One subprocess invocation request: argument vector, working
directory, and the timeout handed to subprocess.run. -/
structure SubprocessCall where
  cmd : List String
  cwd : String
  timeout : Nat
  deriving DecidableEq, Repr

/-- Command and timeout that sync_package passes to subprocess.run
(runner.py lines 44 to 55): uv sync, with --quiet unless verbose, run in
the package directory with the literal timeout 300. The function has no
timeout parameter. -/
def sync_package_call (package_path : String) (verbose : Bool) : SubprocessCall :=
  { cmd := if verbose then ["uv", "sync"] else ["uv", "sync", "--quiet"],
    cwd := package_path,
    timeout := 300 }

/-- Default of the timeout parameter of run_tests_in_package (runner.py
line 98) and of run_tests_isolated (runner.py line 177). -/
def RUN_TESTS_DEFAULT_TIMEOUT : Nat := 600

/-- Command and timeout that run_tests_in_package passes to
subprocess.run (runner.py lines 114 to 125): uv run pytest with the
extra arguments, in the package directory, with the caller supplied
timeout. -/
def run_tests_in_package_call (package_path : String) (pytest_args : List String)
    (timeout : Nat) : SubprocessCall :=
  { cmd := ["uv", "run", "pytest"] ++ pytest_args,
    cwd := package_path,
    timeout := timeout }

/-- Command and timeout that run_tests_isolated passes to subprocess.run
(runner.py lines 198 to 221): uv run --isolated, one --with per declared
test dependency, --with the package path, then pytest and the extra
arguments, with the caller supplied timeout. -/
def run_tests_isolated_call (package_path : String) (test_dependencies : List String)
    (pytest_args : List String) (timeout : Nat) : SubprocessCall :=
  { cmd := ["uv", "run", "--isolated"]
      ++ (test_dependencies.map (fun dep => ["--with", dep])).flatten
      ++ ["--with", package_path, "pytest"] ++ pytest_args,
    cwd := package_path,
    timeout := timeout }

/-- Embedding of the outcome handling of sync_package (runner.py lines
48 to 91) over the subprocess oracle. Success is returncode == 0; the
three exception handlers return return_code -1 with fixed messages. -/
def sync_package (package_name : String) (proc : ProcOutcome) : SyncResult :=
  match proc with
  | .completed code out err =>
    { package_name := package_name,
      success := code == 0,
      output := pyStrip (combineOutput out err),
      return_code := code }
  | .timedOut =>
    { package_name := package_name,
      success := false,
      output := "Sync timed out after 300 seconds",
      return_code := -1 }
  | .fileNotFound =>
    { package_name := package_name,
      success := false,
      output := "Error: \x27uv\x27 command not found. Please ensure UV is installed.",
      return_code := -1 }
  | .osError msg =>
    { package_name := package_name,
      success := false,
      output := "Error running sync: " ++ msg,
      return_code := -1 }

/-- Embedding of the outcome handling of run_tests_in_package (runner.py
lines 118 to 169) over the subprocess oracle. The elapsed argument is
the measured wall clock duration. passed is returncode == 0. -/
def run_tests_in_package (package_name : String) (timeout : Nat) (proc : ProcOutcome)
    (elapsed : Rat) : TestResult :=
  match proc with
  | .completed code out err =>
    { package_name := package_name,
      passed := code == 0,
      duration := elapsed,
      output := pyStrip (combineOutput out err),
      return_code := code }
  | .timedOut =>
    { package_name := package_name,
      passed := false,
      duration := elapsed,
      output := "Test execution timed out after " ++ toString timeout ++ " seconds",
      return_code := -1 }
  | .fileNotFound =>
    { package_name := package_name,
      passed := false,
      duration := elapsed,
      output := "Error: \x27uv\x27 command not found. Please ensure UV is installed.",
      return_code := -1 }
  | .osError msg =>
    { package_name := package_name,
      passed := false,
      duration := elapsed,
      output := "Error running tests: " ++ msg,
      return_code := -1 }

/-- Embedding of the outcome handling of run_tests_isolated (runner.py
lines 214 to 265) over the subprocess oracle. The body is identical to
the cached runner: passed is returncode == 0, the output is the stripped
combination of the channels with nothing appended, and the three
exception handlers mirror runner.py lines 237 to 265. -/
def run_tests_isolated (package_name : String) (timeout : Nat) (proc : ProcOutcome)
    (elapsed : Rat) : TestResult :=
  match proc with
  | .completed code out err =>
    { package_name := package_name,
      passed := code == 0,
      duration := elapsed,
      output := pyStrip (combineOutput out err),
      return_code := code }
  | .timedOut =>
    { package_name := package_name,
      passed := false,
      duration := elapsed,
      output := "Test execution timed out after " ++ toString timeout ++ " seconds",
      return_code := -1 }
  | .fileNotFound =>
    { package_name := package_name,
      passed := false,
      duration := elapsed,
      output := "Error: \x27uv\x27 command not found. Please ensure UV is installed.",
      return_code := -1 }
  | .osError msg =>
    { package_name := package_name,
      passed := false,
      duration := elapsed,
      output := "Error running tests: " ++ msg,
      return_code := -1 }

/-- Inner loop of the package filter in the run command (cli.py lines
137 to 140): test the name against each pattern in order and stop at the
first match. fnm is the external fnmatch.fnmatch collaborator. -/
def matchesAnyPattern (fnm : String → String → Bool) (name : String) : List String → Bool
  | [] => false
  | pat :: rest => if fnm name pat then true else matchesAnyPattern fnm name rest

/-- Embedding of the package filter of the run command (cli.py lines 133
to 142): keep, in input order, each package whose name matches at least
one pattern; the inner break appends the package at most once per outer
iteration. -/
def filterPackages (fnm : String → String → Bool) (patterns : List String) :
    List Package → List Package
  | [] => []
  | p :: rest =>
    if matchesAnyPattern fnm p.name patterns then p :: filterPackages fnm patterns rest
    else filterPackages fnm patterns rest

/-- Embedding of the per package loop of the run command (cli.py lines
161 to 228). Strategy execution is abstracted by the oracles syncOk
(sync step success), testPassed (test run outcome) and testDur (reported
duration). The first returned list is the results accumulator, one entry
(name, passed, duration) per append in the source; the second is the
list of packages for which the test execution step was invoked. A failed
sync appends (name, False, 0.0) without running tests; with fail_fast
set, iteration stops right after the first appended non-success. -/
def runLoop (failFast syncMode : Bool) (syncOk testPassed : Package → Bool)
    (testDur : Package → Rat) : List Package → List (String × Bool × Rat) × List String
  | [] => ([], [])
  | p :: rest =>
    if syncMode && !(syncOk p) then
      let tail := if failFast then (([], []) : List (String × Bool × Rat) × List String)
        else runLoop failFast syncMode syncOk testPassed testDur rest
      ((p.name, false, 0) :: tail.1, tail.2)
    else
      let tail := if failFast && !(testPassed p) then
          (([], []) : List (String × Bool × Rat) × List String)
        else runLoop failFast syncMode syncOk testPassed testDur rest
      ((p.name, testPassed p, testDur p) :: tail.1, p.name :: tail.2)

/-- Combined subprocess output used in the hint counterexample: a uv
dependency resolution failure message. -/
def resolutionFailureOutput : String :=
  "error: No solution found when resolving dependencies for pytest"

/-- Two sibling directories whose manifests both declare the name dup. -/
def dupForest : Forest :=
  .cons "a" (some (some "dup")) .nil
    (.cons "b" (some (some "dup")) .nil .nil)

/-- A package nested two levels deep: packages/core with a manifest and a
tests directory. -/
def nestedForest : Forest :=
  .cons "packages" none
    (.cons "core" (some (some "core")) (.cons "tests" none .nil .nil) .nil)
    .nil

/-- The Package record that discovery emits for nestedForest. -/
def nestedPkg : Package :=
  { name := "core",
    path := ["packages", "core"],
    has_tests := true,
    pyproject_path := ["packages", "core", "pyproject.toml"] }

/-- Fixture packages named after the filter glob scenario of the spec. -/
def filterFixture : List Package :=
  [{ name := "core-api", path := ["core-api"], has_tests := true,
     pyproject_path := ["core-api", "pyproject.toml"] },
   { name := "core-utils", path := ["core-utils"], has_tests := true,
     pyproject_path := ["core-utils", "pyproject.toml"] },
   { name := "service-worker", path := ["service-worker"], has_tests := true,
     pyproject_path := ["service-worker", "pyproject.toml"] }]

/-- Concrete matcher for the filter witness: exact name or the universal
pattern. Overlapping patterns exercise the at-most-once property. -/
def exactOrStarMatcher : String → String → Bool :=
  fun name pat => name == pat || pat == "*"

/-- Fail fast fixture packages. -/
def pkgA : Package :=
  { name := "pkg-a", path := ["pkg-a"], has_tests := true,
    pyproject_path := ["pkg-a", "pyproject.toml"] }

/-- Second fail fast fixture package. -/
def pkgB : Package :=
  { name := "pkg-b", path := ["pkg-b"], has_tests := true,
    pyproject_path := ["pkg-b", "pyproject.toml"] }

/-- Third fail fast fixture package. -/
def pkgC : Package :=
  { name := "pkg-c", path := ["pkg-c"], has_tests := true,
    pyproject_path := ["pkg-c", "pyproject.toml"] }

example : (find_packages nestedForest) = [nestedPkg] := by decide

example : (find_packages dupForest).map Package.name = ["dup", "dup"] := by decide

theorem strLtB_asymm : ∀ x y, strLtB x y = true → strLtB y x = true → False := by
  intro x
  induction x with
  | nil => intro y hx hy; cases y <;> simp [strLtB] at hx hy
  | cons a as ih =>
    intro y hx hy
    cases y with
    | nil => simp [strLtB] at hx
    | cons b bs =>
      simp only [strLtB] at hx hy
      split at hx
      · rename_i h1
        rw [if_neg (by omega), if_pos (by omega)] at hy
        exact absurd hy (by simp)
      · split at hx
        · exact absurd hx (by simp)
        · rename_i h1 h2
          rw [if_neg (by omega), if_neg (by omega)] at hy
          exact ih bs hx hy

theorem strLtB_connected : ∀ x y z, strLtB x z = true → strLtB x y = true ∨ strLtB y z = true := by
  intro x
  induction x with
  | nil =>
    intro y z hx
    cases z with
    | nil => simp [strLtB] at hx
    | cons c cs =>
      cases y with
      | nil => right; simp [strLtB]
      | cons b bs => left; simp [strLtB]
  | cons a as ih =>
    intro y z hx
    cases z with
    | nil => simp [strLtB] at hx
    | cons c cs =>
      cases y with
      | nil => right; simp [strLtB]
      | cons b bs =>
        simp only [strLtB] at hx ⊢
        by_cases hab : a.toNat < b.toNat
        · left; rw [if_pos hab]
        · by_cases hba : b.toNat < a.toNat
          · right
            split at hx
            · rename_i h1; rw [if_pos (by omega)]
            · split at hx
              · exact absurd hx (by simp)
              · rename_i h1 h2; rw [if_pos (by omega)]
          · split at hx
            · rename_i h1; right; rw [if_pos (by omega)]
            · split at hx
              · exact absurd hx (by simp)
              · rename_i h1 h2
                rcases ih bs cs hx with h | h
                · left; rw [if_neg hab, if_neg hba]; exact h
                · right; rw [if_neg (by omega), if_neg (by omega)]; exact h

theorem scanForest_nonskip (base : List String) (f : Forest)
    (hb : ∀ c ∈ base, _should_skip_dir c = false) :
    ∀ p ∈ scanForest base f, ∀ c ∈ p.path, _should_skip_dir c = false := by
  induction f generalizing base with
  | nil => intro p hp; simp [scanForest] at hp
  | cons nm pyproject children rest ihc ihr =>
    intro p hp
    rw [scanForest, List.mem_append] at hp
    rcases hp with hp | hp
    · by_cases hs : _should_skip_dir nm
      · simp [hs] at hp
      · rw [if_neg hs, List.mem_append] at hp
        have hb2 : ∀ c ∈ base ++ [nm], _should_skip_dir c = false := by
          intro c hc
          rcases List.mem_append.mp hc with h | h
          · exact hb c h
          · simp only [List.mem_singleton] at h
            subst h
            exact eq_false_of_ne_true hs
        rcases hp with hp | hp
        · unfold emitPackage at hp
          cases pyproject with
          | none => simp at hp
          | some parsed =>
            simp only [List.mem_singleton] at hp
            subst hp
            exact fun c hc => hb2 c hc
        · exact ihc (base ++ [nm]) hb2 p hp
    · exact ihr base hb p hp

/-- C1: the Package dataclass produced by discovery declares only the
fields name, path, has_tests and pyproject_path, so the attribute access
pkg.test_dependencies performed by the isolated execution path of the
run command fails for every discovered package instead of yielding the
declared test dependency group. -/
theorem package_test_dependencies_access_fails (p : Package) :
    cli_isolated_test_dependencies p = none := rfl

/-- C2 counterexample: at exit code 5 the isolated runner reports
passed = false, refuting the claimed classification
passed = (c == 0 or c == 5) at the concrete input c = 5. -/
theorem run_tests_isolated_exit5_refutes_claim :
    (run_tests_isolated "pkg" 600 (.completed 5 "" "") 0).passed = false ∧
      ¬ (((run_tests_isolated "pkg" 600 (.completed 5 "" "") 0).passed = true) ↔
        ((5 : Int) = 0 ∨ (5 : Int) = 5)) := by
  constructor
  · decide
  · decide

/-- C2 amended: for every completed isolated test run the classification
is passed = true exactly when the exit code is 0; exit code 5 is not
treated as success. -/
theorem run_tests_isolated_passed_iff_exit_zero (name : String) (timeout : Nat)
    (code : Int) (out err : String) (elapsed : Rat) :
    (run_tests_isolated name timeout (.completed code out err) elapsed).passed = true ↔
      code = 0 := by
  simp [run_tests_isolated]

/-- C3 counterexample: at exit code 5 the cached runner and the isolated
runner classify identically (both report passed = false), refuting the
claimed asymmetry between the two strategies at the concrete input 5. -/
theorem cached_exit5_no_asymmetry :
    (run_tests_in_package "pkg" 600 (.completed 5 "" "") 0).passed =
        (run_tests_isolated "pkg" 600 (.completed 5 "" "") 0).passed ∧
      (run_tests_in_package "pkg" 600 (.completed 5 "" "") 0).passed = false := by
  constructor
  · decide
  · decide

/-- C3 amended: for every completed cached mode test run the
classification is passed = true exactly when the exit code is 0, so exit
code 5 yields passed = false; this is identical to, not asymmetric with,
the isolated strategy. -/
theorem run_tests_in_package_passed_iff_exit_zero (name : String) (timeout : Nat)
    (code : Int) (out err : String) (elapsed : Rat) :
    ((run_tests_in_package name timeout (.completed code out err) elapsed).passed = true ↔
        code = 0) ∧
      (run_tests_in_package name timeout (.completed code out err) elapsed).passed =
        (run_tests_isolated name timeout (.completed code out err) elapsed).passed := by
  constructor
  · simp [run_tests_in_package]
  · rfl

/-- C4 counterexample: an isolated run that exits 1 with a dependency
resolution failure phrase in its output returns exactly the stripped
subprocess output; no remediation hint is appended to it. -/
theorem run_tests_isolated_no_hint_appended :
    (run_tests_isolated "pkg" 600 (.completed 1 resolutionFailureOutput "") 0).output =
        resolutionFailureOutput ∧
      (run_tests_isolated "pkg" 600 (.completed 1 resolutionFailureOutput "") 0).return_code
        = 1 := by
  constructor
  · decide
  · decide

/-- C4 amended: the isolated runner never enriches its output; for every
completed run, whatever the exit code and whatever the channels contain,
the returned output is exactly the stripped combination of stdout and
stderr with nothing appended. -/
theorem run_tests_isolated_output_exactly_stripped (name : String) (timeout : Nat)
    (code : Int) (out err : String) (elapsed : Rat) :
    (run_tests_isolated name timeout (.completed code out err) elapsed).output =
      pyStrip (combineOutput out err) := rfl

/-- C5: when the manifest parses but the value stored under the key
project is not a table, _parse_package_name raises an uncaught
AttributeError instead of returning None, and when project.name is
present but not a string the raw non-string value is returned; both
contradict the documented always-absent failure policy. The remaining
conjuncts record the handled cases the docstring does describe. -/
theorem parse_package_name_nontable_project_raises :
    _parse_package_name (.ok [("project", .str "hello")]) = .raised "AttributeError" ∧
      _parse_package_name (.ok [("project", .table [("name", .int 42)])]) =
        .ret (some (.int 42)) ∧
      _parse_package_name (.ok [("project", .table [("name", .str "my-package")])]) =
        .ret (some (.str "my-package")) ∧
      _parse_package_name .ioError = .ret none ∧
      _parse_package_name .decodeError = .ret none :=
  ⟨rfl, rfl, rfl, rfl, rfl⟩

/-- C6 counterexample: the provisioning call built by sync_package hands
the literal timeout 300 to subprocess.run whichever way the function is
called; sync_package has no timeout parameter, so no call site can
override it. -/
theorem sync_timeout_not_overridable :
    (sync_package_call "pkg" true).timeout = 300 ∧
      (sync_package_call "pkg" false).timeout = 300 := by
  constructor
  · rfl
  · rfl

/-- C6 amended: the test execution timeout defaults to 600 seconds and
each call site can pass a different value, which both runners hand to
subprocess.run unchanged; the provisioning timeout is fixed at 300
seconds for every call and is not overridable. -/
theorem timeout_defaults_and_overrides :
    RUN_TESTS_DEFAULT_TIMEOUT = 600 ∧
      (∀ (p : String) (args : List String) (t : Nat),
        (run_tests_in_package_call p args t).timeout = t) ∧
      (∀ (p : String) (deps args : List String) (t : Nat),
        (run_tests_isolated_call p deps args t).timeout = t) ∧
      (∀ (p : String) (v : Bool), (sync_package_call p v).timeout = 300) :=
  ⟨rfl, fun _ _ _ => rfl, fun _ _ _ _ => rfl, fun _ _ => rfl⟩

/-- C7 counterexample: two sibling directories whose manifests both
declare the name dup yield a discovery output whose name sequence is
dup, dup, which is not strictly sorted. -/
theorem find_packages_not_strictly_sorted_on_duplicates :
    ¬ List.Sorted (fun a b : String => pyStrLt a b = true)
      ((find_packages dupForest).map Package.name) := by
  decide

/-- C7 amended: for every input directory tree the sequence returned by
find_packages is sorted in non-strictly ascending code point order by
package name; duplicate names may repeat, so the order is non-strict. -/
theorem find_packages_sorted_by_name (t : Forest) :
    List.Sorted (fun a b : String => pyStrLe a b = true)
      ((find_packages t).map Package.name) := by
  haveI : IsTotal Package rPkgName := by
    constructor
    intro a b
    unfold rPkgName pyStrLe
    by_cases h1 : strLtB b.name.data a.name.data = true
    · by_cases h2 : strLtB a.name.data b.name.data = true
      · exact absurd (strLtB_asymm _ _ h1 h2) (by simp)
      · right; simp [h2]
    · left; simp [h1]
  haveI : IsTrans Package rPkgName := by
    constructor
    intro a b c hab hbc
    unfold rPkgName pyStrLe at *
    simp only [Bool.not_eq_true'] at hab hbc ⊢
    by_cases h : strLtB c.name.data a.name.data = true
    · rcases strLtB_connected _ _ _ h with h2 | h2
      · rw [h2] at hbc; exact absurd hbc (by simp)
      · rw [h2] at hab; exact absurd hab (by simp)
    · simp only [Bool.not_eq_true] at h
      rw [h]
  rw [List.Sorted, List.pairwise_map]
  exact List.sorted_insertionSort rPkgName (scanForest [] t)

/-- C8: with fail fast enabled, in either mode, once a package has a
non-success outcome the loop stops. The prefix of succeeding packages
(in sync mode: sync succeeded and tests passed) is reported in order;
the failing package is reported once, as a sync failure entry with zero
duration when its sync step failed in sync mode, else as a test failure
entry; everything after it is neither attempted nor reported. The
attempts component shows the test execution step was invoked exactly
for the succeeding prefix plus, unless the failure was a sync failure,
the failing package itself. -/
theorem run_failfast_stops_after_first_failure (syncMode : Bool)
    (syncOk testPassed : Package → Bool) (testDur : Package → Rat)
    (xs : List Package) (p : Package) (ys : List Package)
    (hxs : ∀ q ∈ xs, (syncMode = true → syncOk q = true) ∧ testPassed q = true)
    (hp : (syncMode = true ∧ syncOk p = false) ∨ testPassed p = false) :
    runLoop true syncMode syncOk testPassed testDur (xs ++ p :: ys) =
      (xs.map (fun q => (q.name, true, testDur q)) ++
         [(p.name, false, if syncMode && !(syncOk p) then 0 else testDur p)],
       xs.map Package.name ++ (if syncMode && !(syncOk p) then [] else [p.name])) := by
  induction xs with
  | nil =>
    rw [List.nil_append, runLoop]
    by_cases hs : (syncMode && !(syncOk p)) = true
    · simp [hs]
    · have hpf : testPassed p = false := by
        rcases hp with ⟨hm, hso⟩ | h
        · exact absurd (by rw [hm, hso]; rfl) hs
        · exact h
      simp [hs, hpf]
  | cons q qs ih =>
    have hq := hxs q (List.mem_cons_self q qs)
    have ih2 := ih (fun r hr => hxs r (List.mem_cons_of_mem q hr))
    rw [List.cons_append, runLoop, ih2]
    have hsq : (syncMode && !(syncOk q)) = false := by
      cases hm : syncMode
      · rfl
      · rw [hq.1 hm]; rfl
    simp [hsq, hq.2]

/-- C8 witness: three packages, the first failing, fail fast on. In
isolated mode a test failure gives one result entry and one execution
attempt; in sync mode a sync failure gives one result entry with zero
duration and no execution attempt. -/
theorem run_failfast_stops_witness :
    runLoop true false (fun _ => true) (fun _ => false) (fun _ => 0) [pkgA, pkgB, pkgC] =
        ([("pkg-a", false, 0)], ["pkg-a"]) ∧
      runLoop true true (fun _ => false) (fun _ => true) (fun _ => 0) [pkgA, pkgB, pkgC] =
        ([("pkg-a", false, 0)], []) := by
  constructor
  · have h := run_failfast_stops_after_first_failure false (fun _ => true) (fun _ => false)
      (fun _ => (0 : Rat)) [] pkgA [pkgB, pkgC] (by simp) (Or.inr rfl)
    simpa using h
  · have h := run_failfast_stops_after_first_failure true (fun _ => false) (fun _ => true)
      (fun _ => (0 : Rat)) [] pkgA [pkgB, pkgC] (by simp) (Or.inl ⟨rfl, rfl⟩)
    simpa using h

/-- C9: every package reported by find_packages has a path none of whose
directory components is skipped by _should_skip_dir, so no manifest
below a directory whose name is in SKIP_DIRS or begins with a dot is
ever reported, at any nesting depth. -/
theorem find_packages_never_under_skipped_dir (t : Forest) (p : Package)
    (hp : p ∈ find_packages t) : ∀ c ∈ p.path, _should_skip_dir c = false := by
  have hmem : p ∈ scanForest [] t := by
    have hperm := List.perm_insertionSort rPkgName (scanForest [] t)
    exact hperm.mem_iff.mp hp
  exact scanForest_nonskip [] t (by simp) p hmem

/-- C9 witness: the nested fixture package is discovered and its leading
path component is not a skipped name. -/
theorem find_packages_never_under_skipped_dir_witness :
    nestedPkg ∈ find_packages nestedForest ∧ _should_skip_dir "packages" = false :=
  ⟨by decide,
   find_packages_never_under_skipped_dir nestedForest nestedPkg (by decide) "packages"
     (by decide)⟩

/-- C10: for every matcher, pattern list and discovered package list,
the filtered list of the run command is a sublist of the input, so it
preserves the name sorted input order and contains each package at most
as often as the input does; when the input has no duplicates each
package appears at most once however many patterns match it. -/
theorem filterPackages_sublist_of_discovered (fnm : String → String → Bool)
    (patterns : List String) (pkgs : List Package) :
    (filterPackages fnm patterns pkgs).Sublist pkgs ∧
      (pkgs.Nodup → (filterPackages fnm patterns pkgs).Nodup) := by
  have hsub : (filterPackages fnm patterns pkgs).Sublist pkgs := by
    induction pkgs with
    | nil => simp [filterPackages]
    | cons p rest ih =>
      rw [filterPackages]
      by_cases h : matchesAnyPattern fnm p.name patterns
      · rw [if_pos h]; exact List.Sublist.cons₂ p ih
      · rw [if_neg h]; exact List.Sublist.cons p ih
  exact ⟨hsub, fun hn => List.Nodup.sublist hsub hn⟩

/-- C10 witness: with overlapping patterns that both match core-api, the
filtered fixture list is a sublist of the input and has no duplicate
entry. -/
theorem filterPackages_sublist_witness :
    (filterPackages exactOrStarMatcher ["*", "core-api"] filterFixture).Sublist
        filterFixture ∧
      (filterPackages exactOrStarMatcher ["*", "core-api"] filterFixture).Nodup :=
  ⟨(filterPackages_sublist_of_discovered exactOrStarMatcher ["*", "core-api"]
      filterFixture).1,
   (filterPackages_sublist_of_discovered exactOrStarMatcher ["*", "core-api"]
      filterFixture).2 (by decide)⟩
